import Mathlib

/-!
Verification of `src/ecomm/protocol/config.hpp` (the ecomm protocol
configuration header).

The header is pure C preprocessor text: an include guard
`ECOMM_PROTOCOL_CONFIG_HPP_`, an unconditional
`#define ECOMM_PROTOCOL_VERSION 0` followed by a `static_assert` that the
value lies in [0, 3], a guarded default `#define ECOMM_BOARD_ID 0`, a
guarded default `#define ECOMM_DEVICE_N 2`, and a `static_assert` that
`ECOMM_DEVICE_N` lies in [1, 255].

We embed the relevant preprocessor semantics shallowly: a translation-unit
state carries the definedness/value of each of the four symbols, a
`#define` of an already defined object-like macro with a different
replacement list is ill-formed ([cpp.replace]/4, diagnostic required,
modelled as a build failure), and a failed `static_assert` halts the build
with its message.  `processConfigHpp` transliterates the header's
directives in file order.
-/

/-- Preprocessor state of a translation unit at the point where
`config.hpp` is about to be processed (or has been processed): whether the
include guard `ECOMM_PROTOCOL_CONFIG_HPP_` is defined, and the current
values bound to the three object-like configuration macros (`none` means
the symbol is not defined). -/
structure PPState where
  guard : Bool
  protocolVersion : Option Int
  boardId : Option Int
  deviceN : Option Int
deriving DecidableEq, Repr

/-- A build-time failure while preprocessing/compiling the header: an
ill-formed redefinition of an object-like macro with a different
replacement list, or a failed `static_assert` carrying its message. -/
inductive BuildError where
  | redefinition (name : String)
  | staticAssertFailed (msg : String)
deriving DecidableEq, Repr

/-- The symbolic name of the protocol-version macro. -/
def protocolVersionSym : String := "ECOMM_PROTOCOL_VERSION"

/-- The `static_assert` message on line 34 of `config.hpp`. -/
def protocolVersionRangeMsg : String := "ECOMM_PROTOCOL_VERSION must be in range [0, 3]"

/-- The `static_assert` message on line 43 of `config.hpp`. -/
def deviceNRangeMsg : String := "ECOMM_DEVICE_N must be in range [1, 255]"

/-- `#define name v` for an object-like macro currently bound to `cur`:
defining a fresh symbol succeeds; redefining with an identical replacement
list is permitted and keeps the value; redefining with a different
replacement list is ill-formed ([cpp.replace]/4) and halts the build. -/
def defineSymbol (cur : Option Int) (v : Int) (name : String) : Except BuildError Int :=
  match cur with
  | none => .ok v
  | some w => if w = v then .ok v else .error (.redefinition name)

/-- `static_assert(cond, msg)`: compilation continues iff `cond` holds;
otherwise the build halts with `msg`. -/
def staticAssert (cond : Bool) (msg : String) : Except BuildError Unit :=
  if cond then .ok () else .error (.staticAssertFailed msg)

/-- Lines 36-38 of `config.hpp`:
`#ifndef ECOMM_BOARD_ID` / `#define ECOMM_BOARD_ID 0` / `#endif` —
the resolved board id is the prior definition when present, else 0. -/
def resolveBoardId (s : PPState) : Int := s.boardId.getD 0

/-- Lines 40-42 of `config.hpp`:
`#ifndef ECOMM_DEVICE_N` / `#define ECOMM_DEVICE_N 2` / `#endif` —
the resolved device count is the prior definition when present, else 2. -/
def resolveDeviceN (s : PPState) : Int := s.deviceN.getD 2

/-- Processing `config.hpp` once, in file order.  If the include guard is
already defined the whole body is skipped (`#ifndef` on line 30) and the
state is unchanged.  Otherwise: the guard is defined (line 31),
`ECOMM_PROTOCOL_VERSION` is defined unconditionally to 0 (line 33), its
range `static_assert` runs (line 34), `ECOMM_BOARD_ID` and
`ECOMM_DEVICE_N` are resolved to override-if-present-else-default
(lines 36-38 and 40-42), and the `ECOMM_DEVICE_N` range `static_assert`
runs on the resolved value (line 43). -/
def processConfigHpp (s : PPState) : Except BuildError PPState :=
  if s.guard then .ok s
  else
    match defineSymbol s.protocolVersion 0 protocolVersionSym with
    | .error e => .error e
    | .ok pv =>
      match staticAssert (decide (pv ≥ 0 ∧ pv < 4)) protocolVersionRangeMsg with
      | .error e => .error e
      | .ok _ =>
        match staticAssert (decide (resolveDeviceN s > 0 ∧ resolveDeviceN s < 256)) deviceNRangeMsg with
        | .error e => .error e
        | .ok _ =>
          .ok { guard := true, protocolVersion := some pv,
                boardId := some (resolveBoardId s),
                deviceN := some (resolveDeviceN s) }

/-- A translation unit that supplies no definition before the header. -/
def initialEnv : PPState :=
  { guard := false, protocolVersion := none, boardId := none, deviceN := none }

/-- A translation unit that pre-defines only `ECOMM_DEVICE_N` to `v`. -/
def withDeviceN (v : Int) : PPState := { initialEnv with deviceN := some v }

/-- A translation unit whose `ECOMM_BOARD_ID` binding is `b`
(`none`: no override supplied, `some v`: override `v` supplied). -/
def withBoardId (b : Option Int) : PPState := { initialEnv with boardId := b }

/-- A translation unit that pre-defines only `ECOMM_PROTOCOL_VERSION`
to `v`. -/
def withProtocolVersion (v : Int) : PPState :=
  { initialEnv with protocolVersion := some v }

/-- Defining a previously undefined symbol succeeds. -/
theorem defineSymbol_none (v : Int) (name : String) :
    defineSymbol none v name = .ok v := rfl

/-- Redefining a symbol with an identical replacement list succeeds and
keeps the value. -/
theorem defineSymbol_same (v : Int) (name : String) :
    defineSymbol (some v) v name = .ok v := by
  simp [defineSymbol]

/-- Redefining a symbol with a different replacement list is ill-formed
and halts the build. -/
theorem defineSymbol_diff (w v : Int) (name : String) (h : w ≠ v) :
    defineSymbol (some w) v name = .error (.redefinition name) := by
  simp [defineSymbol, h]

/-- A `static_assert` whose condition holds lets compilation continue. -/
theorem staticAssert_ok (p : Prop) [Decidable p] (hp : p) (msg : String) :
    staticAssert (decide p) msg = .ok () := by
  simp [staticAssert, hp]

/-- A `static_assert` whose condition fails halts the build with its
message. -/
theorem staticAssert_err (p : Prop) [Decidable p] (hp : ¬ p) (msg : String) :
    staticAssert (decide p) msg = .error (.staticAssertFailed msg) := by
  simp [staticAssert, hp]

/-- The protocol-version assertion applied to the value 0 passes. -/
theorem pvAssert_zero_ok :
    staticAssert (decide ((0 : Int) ≥ 0 ∧ (0 : Int) < 4)) protocolVersionRangeMsg = .ok () := rfl

/-- When the include guard is already defined, processing the header is a
no-op (the `#ifndef` on line 30 skips the whole body). -/
theorem processConfigHpp_guarded (s : PPState) (h : s.guard = true) :
    processConfigHpp s = .ok s := by
  simp [processConfigHpp, h]

/-- Successful processing from an unguarded state whose protocol symbol is
undefined (or pre-defined to the identical value 0) and whose resolved
device count lies in range: the exported constants are protocol version 0
and the override-if-present-else-default resolutions. -/
theorem processConfigHpp_ok_of (s : PPState) (hg : s.guard = false)
    (hpv : s.protocolVersion = none ∨ s.protocolVersion = some 0)
    (h1 : resolveDeviceN s > 0) (h2 : resolveDeviceN s < 256) :
    processConfigHpp s
      = .ok (PPState.mk true (some 0) (some (resolveBoardId s)) (some (resolveDeviceN s))) := by
  unfold processConfigHpp
  rcases hpv with hpv | hpv <;>
    rw [hg, hpv] <;>
    simp only [defineSymbol_none, defineSymbol_same, pvAssert_zero_ok,
      staticAssert_ok (resolveDeviceN s > 0 ∧ resolveDeviceN s < 256) (And.intro h1 h2),
      Bool.false_eq_true, if_false]

/-- Processing from an unguarded state whose protocol symbol is undefined
(or pre-defined to 0) and whose resolved device count is out of range
halts the build with the device-count assertion message. -/
theorem processConfigHpp_deviceErr_of (s : PPState) (hg : s.guard = false)
    (hpv : s.protocolVersion = none ∨ s.protocolVersion = some 0)
    (hd : ¬ (resolveDeviceN s > 0 ∧ resolveDeviceN s < 256)) :
    processConfigHpp s = .error (.staticAssertFailed deviceNRangeMsg) := by
  unfold processConfigHpp
  rcases hpv with hpv | hpv <;>
    rw [hg, hpv] <;>
    simp only [defineSymbol_none, defineSymbol_same, pvAssert_zero_ok,
      staticAssert_err (resolveDeviceN s > 0 ∧ resolveDeviceN s < 256) hd,
      Bool.false_eq_true, if_false]

/-- Processing from an unguarded state whose protocol symbol is
pre-defined to a value other than 0 halts the build: line 33 redefines the
symbol with a different replacement list, which is ill-formed. -/
theorem processConfigHpp_redef_of (s : PPState) (hg : s.guard = false)
    (w : Int) (hpv : s.protocolVersion = some w) (hw : w ≠ 0) :
    processConfigHpp s = .error (.redefinition protocolVersionSym) := by
  unfold processConfigHpp
  rw [hg, hpv]
  simp only [defineSymbol_diff w 0 protocolVersionSym hw, Bool.false_eq_true, if_false]

/-- Inversion for successful processing from an unguarded state: the guard
is now defined, the protocol version resolved to exactly 0, and the board
id and device count to their override-if-present-else-default values. -/
theorem processConfigHpp_ok_inv (s s' : PPState) (hg : s.guard = false)
    (h : processConfigHpp s = .ok s') :
    s'.guard = true ∧ s'.protocolVersion = some 0 ∧
      s'.boardId = some (resolveBoardId s) ∧ s'.deviceN = some (resolveDeviceN s) := by
  rcases hp : s.protocolVersion with _ | w
  · by_cases hd : resolveDeviceN s > 0 ∧ resolveDeviceN s < 256
    · rw [processConfigHpp_ok_of s hg (Or.inl hp) hd.1 hd.2] at h
      obtain rfl : _ = s' := by simpa using h
      exact ⟨rfl, rfl, rfl, rfl⟩
    · rw [processConfigHpp_deviceErr_of s hg (Or.inl hp) hd] at h
      simp at h
  · by_cases hw : w = 0
    · subst hw
      by_cases hd : resolveDeviceN s > 0 ∧ resolveDeviceN s < 256
      · rw [processConfigHpp_ok_of s hg (Or.inr hp) hd.1 hd.2] at h
        obtain rfl : _ = s' := by simpa using h
        exact ⟨rfl, rfl, rfl, rfl⟩
      · rw [processConfigHpp_deviceErr_of s hg (Or.inr hp) hd] at h
        simp at h
    · rw [processConfigHpp_redef_of s hg w hp hw] at h
      simp at h

/-- Inversion for failed processing: the only two build failures the
header can produce are the ill-formed redefinition of the protocol-version
symbol and the device-count assertion failure. -/
theorem processConfigHpp_error_inv (s : PPState) (e : BuildError)
    (h : processConfigHpp s = .error e) :
    e = .redefinition protocolVersionSym ∨ e = .staticAssertFailed deviceNRangeMsg := by
  by_cases hg : s.guard = true
  · rw [processConfigHpp_guarded s hg] at h
    simp at h
  · have hg2 : s.guard = false := by simpa using hg
    rcases hp : s.protocolVersion with _ | w
    · by_cases hd : resolveDeviceN s > 0 ∧ resolveDeviceN s < 256
      · rw [processConfigHpp_ok_of s hg2 (Or.inl hp) hd.1 hd.2] at h
        simp at h
      · rw [processConfigHpp_deviceErr_of s hg2 (Or.inl hp) hd] at h
        exact Or.inr (by simpa using h.symm)
    · by_cases hw : w = 0
      · subst hw
        by_cases hd : resolveDeviceN s > 0 ∧ resolveDeviceN s < 256
        · rw [processConfigHpp_ok_of s hg2 (Or.inr hp) hd.1 hd.2] at h
          simp at h
        · rw [processConfigHpp_deviceErr_of s hg2 (Or.inr hp) hd] at h
          exact Or.inr (by simpa using h.symm)
      · rw [processConfigHpp_redef_of s hg2 w hp hw] at h
        exact Or.inl (by simpa using h.symm)

/-- C1: for every override value v of `ECOMM_DEVICE_N` with v in [1, 255]
supplied before the header is processed, the build succeeds and the
resolved device-count constant equals exactly v (no clamping or
coercion); the other constants take their defaults (protocol version 0,
board id 0). -/
theorem deviceN_override_in_range_resolves_exactly (v : Int)
    (h1 : 1 ≤ v) (h2 : v ≤ 255) :
    processConfigHpp (withDeviceN v)
      = .ok (PPState.mk true (some 0) (some 0) (some v)) := by
  have hdn : resolveDeviceN (withDeviceN v) = v := rfl
  have hbd : resolveBoardId (withDeviceN v) = 0 := rfl
  have h := processConfigHpp_ok_of (withDeviceN v) rfl (Or.inl rfl)
    (by rw [hdn]; omega) (by rw [hdn]; omega)
  rw [hdn, hbd] at h
  exact h

/-- C1 witness at v = 255: supplying 255 makes the build succeed with
resolved device count exactly 255. -/
theorem deviceN_override_in_range_resolves_exactly_witness :
    processConfigHpp (withDeviceN 255)
      = .ok (PPState.mk true (some 0) (some 0) (some 255)) :=
  deviceN_override_in_range_resolves_exactly 255 (by norm_num) (by norm_num)

/-- C2: for every override value v of `ECOMM_DEVICE_N` outside [1, 255]
supplied before the header is processed, the build fails with the
`static_assert` message naming the parameter and its range, and no
resolved state is produced. -/
theorem deviceN_override_out_of_range_fails (v : Int)
    (h : ¬ (1 ≤ v ∧ v ≤ 255)) :
    processConfigHpp (withDeviceN v)
      = .error (.staticAssertFailed deviceNRangeMsg) := by
  apply processConfigHpp_deviceErr_of _ rfl (Or.inl rfl)
  have hdn : resolveDeviceN (withDeviceN v) = v := rfl
  rw [hdn]
  omega

/-- C2 witness at v = 256: supplying 256 fails the build with the
device-count range message. -/
theorem deviceN_override_out_of_range_fails_witness :
    processConfigHpp (withDeviceN 256)
      = .error (.staticAssertFailed deviceNRangeMsg) :=
  deviceN_override_out_of_range_fails 256 (by norm_num)

/-- C3: in every successful build (from a translation unit that has not
yet processed the header) the resolved protocol version lies in [0, 3];
and pre-establishing any protocol-version value outside [0, 3] makes the
build fail at compile time. -/
theorem protocolVersion_in_range_or_build_fails :
    (∀ s s', s.guard = false → processConfigHpp s = .ok s' →
      ∃ p, s'.protocolVersion = some p ∧ 0 ≤ p ∧ p ≤ 3) ∧
    (∀ v : Int, ¬ (0 ≤ v ∧ v ≤ 3) →
      processConfigHpp (withProtocolVersion v)
        = .error (.redefinition protocolVersionSym)) := by
  constructor
  · intro s s' hg h
    exact ⟨0, (processConfigHpp_ok_inv s s' hg h).2.1, by norm_num⟩
  · intro v hv
    exact processConfigHpp_redef_of _ rfl v rfl (by omega)

/-- C3 witness: the successful default build resolves protocol version 0,
which lies in [0, 3]; and the out-of-range value 4 fails the build. -/
theorem protocolVersion_in_range_or_build_fails_witness :
    (∃ p, (PPState.mk true (some 0) (some 0) (some 2)).protocolVersion = some p ∧ 0 ≤ p ∧ p ≤ 3) ∧
    processConfigHpp (withProtocolVersion 4)
      = .error (.redefinition protocolVersionSym) :=
  ⟨protocolVersion_in_range_or_build_fails.1 initialEnv _ rfl rfl,
   protocolVersion_in_range_or_build_fails.2 4 (by norm_num)⟩

/-- C4: `ECOMM_BOARD_ID` resolution: with no override the resolved value
is exactly 0; with an override v (any integer, negative included) the
resolved value is exactly v; in both cases the build succeeds — no board
id is ever rejected by validation. -/
theorem boardId_any_value_accepted (b : Option Int) :
    processConfigHpp (withBoardId b)
      = .ok (PPState.mk true (some 0) (some (b.getD 0)) (some 2)) := by
  have hdn : resolveDeviceN (withBoardId b) = 2 := rfl
  have hbd : resolveBoardId (withBoardId b) = b.getD 0 := rfl
  have h := processConfigHpp_ok_of (withBoardId b) rfl (Or.inl rfl)
    (by rw [hdn]; norm_num) (by rw [hdn]; norm_num)
  rw [hdn, hbd] at h
  exact h

/-- C5: with no override supplied for `ECOMM_DEVICE_N`, the build
succeeds and the resolved device count is exactly 2. -/
theorem deviceN_default_resolves_to_two :
    processConfigHpp initialEnv
      = .ok (PPState.mk true (some 0) (some 0) (some 2)) := rfl

/-- C6: validation runs against the final resolved value: for any
translation unit about to process the header (guard undefined, protocol
symbol undefined), the build succeeds if and only if the legality check
holds of the resolved device count — the override when supplied, the
default otherwise — and on success the exported device count is exactly
that resolved value, never the default checked speculatively. -/
theorem validation_checks_final_resolved_value (s : PPState)
    (hg : s.guard = false) (hpv : s.protocolVersion = none) :
    processConfigHpp s
        = .ok (PPState.mk true (some 0) (some (resolveBoardId s)) (some (resolveDeviceN s)))
      ↔ (resolveDeviceN s > 0 ∧ resolveDeviceN s < 256) := by
  constructor
  · intro h
    by_contra hc
    rw [processConfigHpp_deviceErr_of s hg (Or.inl hpv) hc] at h
    simp at h
  · intro h
    exact processConfigHpp_ok_of s hg (Or.inl hpv) h.1 h.2

/-- C6 witness at the override 7: the build with device count 7 succeeds
exactly because the resolved value 7 (not the default 2) passes the
check. -/
theorem validation_checks_final_resolved_value_witness :
    processConfigHpp (withDeviceN 7)
      = .ok (PPState.mk true (some 0) (some (resolveBoardId (withDeviceN 7)))
          (some (resolveDeviceN (withDeviceN 7)))) :=
  (validation_checks_final_resolved_value (withDeviceN 7) rfl rfl).mpr
    (by constructor <;> norm_num [resolveDeviceN, withDeviceN, initialEnv])

/-- C7: idempotent inclusion: any state produced by a successful
processing of the header has the include guard defined, so processing the
header again is a no-op — no diagnostics, no redefinition errors, no
duplicate assertion failures, and all three resolved constants
unchanged. -/
theorem reinclusion_is_noop (s s' : PPState)
    (h : processConfigHpp s = .ok s') :
    processConfigHpp s' = .ok s' := by
  have hg : s'.guard = true := by
    by_cases hgs : s.guard = true
    · rw [processConfigHpp_guarded s hgs] at h
      obtain rfl : s = s' := by simpa using h
      exact hgs
    · exact (processConfigHpp_ok_inv s s' (by simpa using hgs) h).1
  exact processConfigHpp_guarded s' hg

/-- C7 witness: re-processing the state produced by the default build is
a no-op. -/
theorem reinclusion_is_noop_witness :
    processConfigHpp (PPState.mk true (some 0) (some 0) (some 2))
      = .ok (PPState.mk true (some 0) (some 0) (some 2)) :=
  reinclusion_is_noop initialEnv _ rfl

/-- C8: an override established only after the header has been processed
has no effect: the processing that actually ran resolved the built-in
defaults (board id 0, device count 2), exactly as if no override existed,
and a renewed processing attempt with the late overrides in place is
blocked by the include guard, changing nothing and re-resolving
nothing. -/
theorem late_override_is_ineffective (v b : Int) (s1 : PPState)
    (h : processConfigHpp initialEnv = .ok s1) :
    s1.boardId = some 0 ∧ s1.deviceN = some 2 ∧
      processConfigHpp { s1 with boardId := some b, deviceN := some v }
        = .ok { s1 with boardId := some b, deviceN := some v } := by
  have hc : processConfigHpp initialEnv
      = .ok (PPState.mk true (some 0) (some 0) (some 2)) := rfl
  rw [hc] at h
  obtain rfl : PPState.mk true (some 0) (some 0) (some 2) = s1 := by simpa using h
  exact ⟨rfl, rfl, processConfigHpp_guarded _ rfl⟩

/-- C8 witness at the late overrides board id 42 and device count 9. -/
theorem late_override_is_ineffective_witness :
    (PPState.mk true (some 0) (some 0) (some 2)).boardId = some 0 ∧
    (PPState.mk true (some 0) (some 0) (some 2)).deviceN = some 2 ∧
      processConfigHpp { PPState.mk true (some 0) (some 0) (some 2) with
                         boardId := some 42, deviceN := some 9 }
        = .ok { PPState.mk true (some 0) (some 0) (some 2) with
                boardId := some 42, deviceN := some 9 } :=
  late_override_is_ineffective 9 42 (PPState.mk true (some 0) (some 0) (some 2)) rfl

/-- C9: the protocol-version assertion can never fail: the header fixes
the resolved protocol version to 0, which satisfies 0 ≤ v < 4, so for
every starting state any build failure the header produces is not the
protocol-version range failure — that branch is unreachable. -/
theorem protocolVersion_assert_unreachable (s : PPState) (e : BuildError)
    (h : processConfigHpp s = .error e) :
    e ≠ BuildError.staticAssertFailed protocolVersionRangeMsg := by
  rcases processConfigHpp_error_inv s e h with h1 | h1 <;> subst h1 <;> decide

/-- C9 witness: the failure produced by pre-defining the protocol symbol
to 5 is not the protocol-version range failure. -/
theorem protocolVersion_assert_unreachable_witness :
    BuildError.redefinition protocolVersionSym
      ≠ BuildError.staticAssertFailed protocolVersionRangeMsg :=
  protocolVersion_assert_unreachable (withProtocolVersion 5) _ rfl

/-- C10: the protocol version has no accepted override path: line 33
defines the symbol unconditionally (no presence guard), so pre-defining
it to any value other than 0 makes the build fail with a conflicting
redefinition rather than the override taking effect; consequently every
successful build (from an unguarded state) resolves the protocol version
to exactly 0. -/
theorem protocolVersion_has_no_override_path :
    (∀ v : Int, v ≠ 0 →
      processConfigHpp (withProtocolVersion v)
        = .error (.redefinition protocolVersionSym)) ∧
    (∀ s s', s.guard = false → processConfigHpp s = .ok s' →
      s'.protocolVersion = some 0) := by
  constructor
  · intro v hv
    exact processConfigHpp_redef_of _ rfl v rfl hv
  · intro s s' hg h
    exact (processConfigHpp_ok_inv s s' hg h).2.1

/-- C10 witness: pre-defining the protocol symbol to 1 fails the build,
and the successful default build resolves protocol version exactly 0. -/
theorem protocolVersion_has_no_override_path_witness :
    processConfigHpp (withProtocolVersion 1)
      = .error (.redefinition protocolVersionSym) ∧
    (PPState.mk true (some 0) (some 0) (some 2)).protocolVersion = some 0 :=
  ⟨protocolVersion_has_no_override_path.1 1 (by norm_num),
   protocolVersion_has_no_override_path.2 initialEnv _ rfl rfl⟩
